import Mathlib

/-!
Verification of the interactive-creation core of the emotional-canvas scene.

The JavaScript/TypeScript source is shallowly embedded: JS numbers are
modelled as exact rationals (with Math.PI taken as the exact rational
value of its IEEE-754 double), JS remainder on numbers as truncated
integer remainder, and the stateful event handlers as explicit
state-transition functions.
-/

/-- Truncated remainder, the semantics of the JS percent operator on
integers (sign follows the dividend).  Every use in this development has a
nonnegative dividend, where it agrees with mathematical mod. -/
def jsRem (a b : ℤ) : ℤ := Int.tmod a b

/-! ## Color-channel model (handleKeyDown / handleKeyUp / updateRGBDisplay) -/

/-- Hold state of one channel key: isHolding flag and press timestamp,
mirroring the per-key record in keyHoldState. -/
structure KeyHold where
  isHolding : Bool
  startTime : ℚ
deriving DecidableEq, Repr

/-- The four channel keys "1" "2" "3" "4". -/
inductive ChannelKey | k1 | k2 | k3 | k4
deriving DecidableEq, Repr

/-- Hold state for the four channel keys, mirroring keyHoldState. -/
structure KeyHoldState where
  h1 : KeyHold
  h2 : KeyHold
  h3 : KeyHold
  h4 : KeyHold
deriving DecidableEq, Repr

/-- Committed color state, mirroring globalRGB.  Fields are integers since
JS numbers hold the channel values; committed values stay in [0, 255]. -/
structure RGBA where
  r : ℤ
  g : ℤ
  b : ℤ
  a : ℤ
deriving DecidableEq, Repr

/-- Read the hold record of one channel key. -/
def getHold : ChannelKey → KeyHoldState → KeyHold
  | .k1, s => s.h1
  | .k2, s => s.h2
  | .k3, s => s.h3
  | .k4, s => s.h4

/-- Replace the hold record of one channel key. -/
def setHold : ChannelKey → KeyHold → KeyHoldState → KeyHoldState
  | .k1, h, s => { s with h1 := h }
  | .k2, h, s => { s with h2 := h }
  | .k3, h, s => { s with h3 := h }
  | .k4, h, s => { s with h4 := h }

/-- Read the channel of globalRGB a key drives. -/
def getChannel : ChannelKey → RGBA → ℤ
  | .k1, c => c.r
  | .k2, c => c.g
  | .k3, c => c.b
  | .k4, c => c.a

/-- Channel-key branch of handleKeyDown: set isHolding and startTime only
if the key was not already holding, else return the previous state
unchanged (the key-repeat guard in the source). -/
def handleKeyDownChannel (key : ChannelKey) (now : ℚ) (s : KeyHoldState) :
    KeyHoldState :=
  if (getHold key s).isHolding then s
  else setHold key { isHolding := true, startTime := now } s

/-- The color delta the source derives from a hold duration:
Math.floor((holdDuration / maxHold) * 255) with maxHold = 3000.  Note the
source applies no min with maxHold here. -/
def colorChange (holdDuration : ℚ) : ℤ :=
  Int.floor (holdDuration / 3000 * 255)

/-- Add a delta to the channel a key drives, wrapping with the JS percent
operator by 256, as in the setGlobalRGB updater of handleKeyUp. -/
def applyColorChange (key : ChannelKey) (delta : ℤ) (c : RGBA) : RGBA :=
  match key with
  | .k1 => { c with r := jsRem (c.r + delta) 256 }
  | .k2 => { c with g := jsRem (c.g + delta) 256 }
  | .k3 => { c with b := jsRem (c.b + delta) 256 }
  | .k4 => { c with a := jsRem (c.a + delta) 256 }

/-- Channel-key branch of handleKeyUp: compute holdDuration from the
stored startTime (with no isHolding check), commit the wrapped channel
value, and reset the hold record to not holding with startTime 0. -/
def handleKeyUpChannel (key : ChannelKey) (now : ℚ) (s : KeyHoldState)
    (c : RGBA) : KeyHoldState × RGBA :=
  let holdDuration := now - (getHold key s).startTime
  (setHold key { isHolding := false, startTime := 0 } s,
   applyColorChange key (colorChange holdDuration) c)

/-- Preview values from updateRGBDisplay: for each held channel key, the
displayed value is the committed value plus the floor delta of the raw
(unclamped) hold duration, wrapped by 256; a channel not held shows its
committed value. -/
def previewValues (c : RGBA) (s : KeyHoldState) (now : ℚ) : RGBA :=
  let pr := if s.h1.isHolding then
    jsRem (c.r + colorChange (now - s.h1.startTime)) 256 else c.r
  let pg := if s.h2.isHolding then
    jsRem (c.g + colorChange (now - s.h2.startTime)) 256 else c.g
  let pb := if s.h3.isHolding then
    jsRem (c.b + colorChange (now - s.h3.startTime)) 256 else c.b
  let pa := if s.h4.isHolding then
    jsRem (c.a + colorChange (now - s.h4.startTime)) 256 else c.a
  { r := pr, g := pg, b := pb, a := pa }

/-- The preview formula as the specification words it: the delta is taken
from the elapsed time clamped by min with 3000 ms, so it saturates at 255.
Written from the spec text to compare with previewValues, which embeds the
source. -/
def previewValuesSpec (c : RGBA) (s : KeyHoldState) (now : ℚ) : RGBA :=
  let pr := if s.h1.isHolding then
    jsRem (c.r + Int.floor (min (now - s.h1.startTime) 3000 / 3000 * 255)) 256
    else c.r
  let pg := if s.h2.isHolding then
    jsRem (c.g + Int.floor (min (now - s.h2.startTime) 3000 / 3000 * 255)) 256
    else c.g
  let pb := if s.h3.isHolding then
    jsRem (c.b + Int.floor (min (now - s.h3.startTime) 3000 / 3000 * 255)) 256
    else c.b
  let pa := if s.h4.isHolding then
    jsRem (c.a + Int.floor (min (now - s.h4.startTime) 3000 / 3000 * 255)) 256
    else c.a
  { r := pr, g := pg, b := pb, a := pa }

/-! ## Creation parameter model (handleMouseUp / useFrame preview) -/

/-- Committed size computed in handleMouseUp:
minSize + (maxSize - minSize) * normalizedHold with minSize = 5,
maxSize = 50, normalizedHold = min(holdDuration, 3000) / 3000. -/
def sizeAtRelease (holdDuration : ℚ) : ℚ :=
  5 + (50 - 5) * (min holdDuration 3000 / 3000)

/-- Live preview size computed each frame in the useFrame preview branch;
the source repeats the same constants and formula as handleMouseUp. -/
def previewSize (holdDuration : ℚ) : ℚ :=
  5 + (50 - 5) * (min holdDuration 3000 / 3000)

/-- Per-frame roundness step of the useFrame preview branch.  Returns the
pair (currentRoundness shown this frame, new maxRoundnessAchieved).  While
the spacebar is held, currentRoundness is half the current size scaled by
the normalized hold and maxRoundnessAchieved is raised to its max with it;
otherwise the frozen maxRoundnessAchieved is reported and kept. -/
def frameRoundness (isSpacebarHeld : Bool) (maxRoundnessAchieved : ℚ)
    (holdDuration : ℚ) : ℚ × ℚ :=
  if isSpacebarHeld then
    let currentSize := previewSize holdDuration
    let normalizedRoundness := min holdDuration 3000 / 3000
    let currentRoundness := currentSize / 2 * normalizedRoundness
    (currentRoundness, max maxRoundnessAchieved currentRoundness)
  else
    (maxRoundnessAchieved, maxRoundnessAchieved)

/-- The (size, roundness) pair committed by handleMouseUp for the spawned
object: size from the total hold duration, roundness equal to the
maxRoundnessAchieved value at release. -/
def committedParams (holdDuration maxRoundnessAchieved : ℚ) : ℚ × ℚ :=
  (sizeAtRelease holdDuration, maxRoundnessAchieved)

/-! ## Anchor resolution (handleMouseDown) -/

/-- World-space point with exact rational coordinates. -/
structure Vec3 where
  x : ℚ
  y : ℚ
  z : ℚ
deriving DecidableEq, Repr

/-- Dot product of two vectors. -/
def Vec3.dot (a b : Vec3) : ℚ := a.x * b.x + a.y * b.y + a.z * b.z

/-- A ray with an origin and a direction. -/
structure Ray3 where
  origin : Vec3
  dir : Vec3
deriving DecidableEq, Repr

/-- Point reached along a ray at parameter t. -/
def Ray3.at (r : Ray3) (t : ℚ) : Vec3 :=
  { x := r.origin.x + t * r.dir.x,
    y := r.origin.y + t * r.dir.y,
    z := r.origin.z + t * r.dir.z }

/-- A plane in Hesse normal form: points p with normal.dot p + coeff = 0,
as in the three.js Plane class (whose second field is the constant
offset). -/
structure Plane3 where
  normal : Vec3
  coeff : ℚ
deriving DecidableEq, Repr

/-- Parameter distance along a ray to a plane, the three.js
Ray.distanceToPlane algorithm: a zero denominator means the ray is
parallel (hitting only if the origin lies in the plane); otherwise the
solved parameter counts only when nonnegative. -/
def distanceToPlane (p : Plane3) (r : Ray3) : Option ℚ :=
  let denominator := p.normal.dot r.dir
  if denominator = 0 then
    if p.normal.dot r.origin + p.coeff = 0 then some 0 else none
  else
    let t := -(r.origin.dot p.normal + p.coeff) / denominator
    if 0 ≤ t then some t else none

/-- Ray and plane intersection point, the three.js Ray.intersectPlane
algorithm. -/
def intersectPlane (p : Plane3) (r : Ray3) : Option Vec3 :=
  (distanceToPlane p r).map (Ray3.at r)

/-- The fallback plane built in handleMouseDown:
new THREE.Plane(new THREE.Vector3(0, 1, 0), 0), the horizontal plane at
height 0. -/
def fallbackPlane : Plane3 := { normal := { x := 0, y := 1, z := 0 }, coeff := 0 }

/-- Anchor resolution of handleMouseDown: the water raycast hit when one
exists (the water surface intersection is an input, produced by the
external raycaster), else the ray intersection with the fallback plane at
height 0, else the origin. -/
def resolveAnchor (waterHit : Option Vec3) (r : Ray3) : Vec3 :=
  match waterHit with
  | some p => p
  | none =>
    match intersectPlane fallbackPlane r with
    | some q => q
    | none => { x := 0, y := 0, z := 0 }

/-- Anchor resolution as the specification words it: the fallback plane
lies at the height of the look-at target (0, 10, 0), that is the plane of
points with y = 10.  Written from the spec text to compare with
resolveAnchor, which embeds the source. -/
def resolveAnchorSpec (waterHit : Option Vec3) (r : Ray3) : Vec3 :=
  match waterHit with
  | some p => p
  | none =>
    match intersectPlane
        { normal := { x := 0, y := 1, z := 0 }, coeff := -10 } r with
    | some q => q
    | none => { x := 0, y := 0, z := 0 }

/-- Pointer-down handler outcome: a primary-button press (button = 0)
creates a session anchored at the resolved position; any other button
returns before creating a session. -/
def handleMouseDownSession (button : ℤ) (waterHit : Option Vec3)
    (r : Ray3) : Option Vec3 :=
  if button ≠ 0 then none else some (resolveAnchor waterHit r)

/-! ## Camera orbit controller (useFrame arrow-key branch) -/

/-- Arrow-key direction state, mirroring arrowKeys. -/
structure ArrowKeys where
  up : Bool
  down : Bool
  left : Bool
  right : Bool
deriving DecidableEq, Repr

/-- The exact rational value of the IEEE-754 double Math.PI, which is
what the source reads when it writes Math.PI: 884279719003555 / 2 ^ 48. -/
def mathPI : ℚ := 884279719003555 / 281474976710656

/-- Spherical coordinates of the camera offset from the fixed target.
The source converts the Cartesian offset to spherical coordinates each
frame, mutates them, and converts back; since that conversion round-trips
for a positive radius we model the controller directly on the spherical
triple. -/
structure SphericalCoords where
  radius : ℚ
  phi : ℚ
  theta : ℚ
deriving DecidableEq, Repr

/-- The rotationSpeed constant of the useFrame camera branch. -/
def rotationSpeed : ℚ := 1.2

/-- The polar clamp written twice in the source:
Math.max(0.1, Math.min(Math.PI * 0.495, x)). -/
def clampPolar (x : ℚ) : ℚ := max 0.1 (min (mathPI * 0.495) x)

/-- Arrow-key update applied when at least one arrow is active: left and
right shift the azimuth, up and down shift the polar angle with an
immediate clamp into [0.1, Math.PI * 0.495]; the radius is never
assigned. -/
def updateSpherical (keys : ArrowKeys) (delta : ℚ) (s : SphericalCoords) :
    SphericalCoords :=
  let s1 := if keys.left then
    { s with theta := s.theta - rotationSpeed * delta } else s
  let s2 := if keys.right then
    { s1 with theta := s1.theta + rotationSpeed * delta } else s1
  let s3 := if keys.up then
    { s2 with phi := clampPolar (s2.phi - rotationSpeed * delta) } else s2
  if keys.down then
    { s3 with phi := clampPolar (s3.phi + rotationSpeed * delta) } else s3

/-- Whether any arrow key is active, the guard of the camera branch. -/
def anyArrow (keys : ArrowKeys) : Bool :=
  keys.left || keys.right || keys.up || keys.down

/-- Per-frame camera transition: with an arrow active the spherical update
runs, otherwise the camera state is left untouched this frame. -/
def cameraFrame (keys : ArrowKeys) (delta : ℚ) (s : SphericalCoords) :
    SphericalCoords :=
  if anyArrow keys then updateSpherical keys delta s else s

/-! ## Audio distance mapper (useFrame audio branch) -/

/-- Per-frame volume applied to the positional audio: the camera-target
distance is normalized over [40, 1000] with clamping into [0, 1], mapped
linearly down from 1.0 by a 0.9 span, and the result passed to setVolume
clamped into [0.2, 1.0]. -/
def appliedVolume (distance : ℚ) : ℚ :=
  let normalizedDistance := max 0 (min 1 ((distance - 40) / (1000 - 40)))
  let volume := 1.0 - normalizedDistance * 0.9
  max 0.2 (min 1.0 volume)

/-! ## Theorems -/

/-- Reading the hold record just written for a key yields that record. -/
theorem getHold_setHold (key : ChannelKey) (h : KeyHold) (s : KeyHoldState) :
    getHold key (setHold key h s) = h := by
  cases key <;> rfl

/-- The channel a key drives after applyColorChange holds the wrapped
sum. -/
theorem getChannel_applyColorChange (key : ChannelKey) (delta : ℤ)
    (c : RGBA) :
    getChannel key (applyColorChange key delta c)
      = jsRem (getChannel key c + delta) 256 := by
  cases key <;> rfl

/-- A nonnegative hold duration yields a nonnegative color delta. -/
theorem colorChange_nonneg (d : ℚ) (h : 0 ≤ d) : 0 ≤ colorChange d :=
  Int.floor_nonneg.mpr
    (mul_nonneg (div_nonneg h (by norm_num)) (by norm_num))

/-- The polar clamp lands in the closed interval
[0.1, Math.PI * 0.495]. -/
theorem clampPolar_mem (x : ℚ) :
    0.1 ≤ clampPolar x ∧ clampPolar x ≤ mathPI * 0.495 :=
  ⟨le_max_left _ _, max_le (by norm_num [mathPI]) (min_le_left _ _)⟩

/-- C1: for every pointer-hold duration d at least 0 ms, the size computed
for both the committed object in handleMouseUp and the live preview each
frame equals 5 + 45 * min(d, 3000) / 3000; it always lies in [5, 50], is
non-decreasing in d, and saturates at 50 for d at least 3000. -/
theorem claim1_size_mapping (d d2 : ℚ) (h0 : 0 ≤ d) (hle : d ≤ d2) :
    sizeAtRelease d = 5 + 45 * min d 3000 / 3000 ∧
    previewSize d = 5 + 45 * min d 3000 / 3000 ∧
    5 ≤ sizeAtRelease d ∧ sizeAtRelease d ≤ 50 ∧
    sizeAtRelease d ≤ sizeAtRelease d2 ∧
    (3000 ≤ d → sizeAtRelease d = 50) := by
  have hm0 : (0 : ℚ) ≤ min d 3000 := le_min h0 (by norm_num)
  have hm1 : min d 3000 ≤ 3000 := min_le_right _ _
  have hmono : min d 3000 ≤ min d2 3000 := min_le_min hle le_rfl
  refine ⟨by unfold sizeAtRelease; ring, by unfold previewSize; ring,
    ?_, ?_, ?_, ?_⟩
  · unfold sizeAtRelease; linarith
  · unfold sizeAtRelease; linarith
  · unfold sizeAtRelease; linarith
  · intro h3
    have he : min d 3000 = 3000 := min_eq_right h3
    unfold sizeAtRelease
    rw [he]; norm_num

/-- Witness for claim1_size_mapping at concrete durations 0 and 3000. -/
theorem claim1_size_mapping_witness :
    sizeAtRelease 3000 = 50 ∧ previewSize 0 = 5 ∧
    sizeAtRelease 0 ≤ sizeAtRelease 3000 := by
  have h1 := claim1_size_mapping 0 3000 (by norm_num) (by norm_num)
  have h2 := claim1_size_mapping 3000 4000 (by norm_num) (by norm_num)
  refine ⟨h2.2.2.2.2.2 (by norm_num), ?_, h1.2.2.2.2.1⟩
  rw [h1.2.1]; norm_num

/-- C9: every frame the ambient volume applied equals
clamp(1.0 - clamp((distance - 40) / (1000 - 40), 0, 1) * 0.9, 0.2, 1.0);
it is monotonically non-increasing in distance and never falls below the
floor of 0.2. -/
theorem claim9_volume_mapping (d d2 : ℚ) (hle : d ≤ d2) :
    appliedVolume d
      = max 0.2 (min 1.0 (1.0 - max 0 (min 1 ((d - 40) / (1000 - 40))) * 0.9)) ∧
    appliedVolume d2 ≤ appliedVolume d ∧
    0.2 ≤ appliedVolume d := by
  refine ⟨rfl, ?_, le_max_left _ _⟩
  unfold appliedVolume
  have hn : max 0 (min 1 ((d - 40) / (1000 - 40)))
      ≤ max 0 (min 1 ((d2 - 40) / (1000 - 40))) := by
    have hdiv : (d - 40) / (1000 - 40) ≤ (d2 - 40) / (1000 - 40) := by
      apply div_le_div_of_nonneg_right (by linarith) (by norm_num)
    exact max_le_max le_rfl (min_le_min le_rfl hdiv)
  have hv : 1.0 - max 0 (min 1 ((d2 - 40) / (1000 - 40))) * 0.9
      ≤ 1.0 - max 0 (min 1 ((d - 40) / (1000 - 40))) * 0.9 := by
    nlinarith
  exact max_le_max le_rfl (min_le_min le_rfl hv)

/-- Witness for claim9_volume_mapping at concrete distances 40 and 1000. -/
theorem claim9_volume_mapping_witness :
    appliedVolume 1000 ≤ appliedVolume 40 ∧ 0.2 ≤ appliedVolume 40 := by
  have h := claim9_volume_mapping 40 1000 (by norm_num)
  exact ⟨h.2.1, h.2.2⟩

/-- C10 counterexample: at camera distance exactly 1000 the applied volume
is 0.2, not the 0.1 the claim states, because the volume passed to
setVolume is clamped below at 0.2. -/
theorem claim10_counterexample :
    appliedVolume 1000 = 0.2 ∧ (0.2 : ℚ) ≠ 0.1 := by
  constructor
  · norm_num [appliedVolume]
  · norm_num

/-- C10 amended: at distance exactly 40 the applied volume is 1.0; at
distance exactly 1000 it is 0.2 (the 0.2 output floor overrides the 0.1
the linear map alone would give); below 40 it stays 1.0 and beyond 1000 it
stays 0.2 (no further change). -/
theorem claim10_endpoint_volumes (d : ℚ) :
    appliedVolume 40 = 1 ∧ appliedVolume 1000 = 0.2 ∧
    (d ≤ 40 → appliedVolume d = 1) ∧ (1000 ≤ d → appliedVolume d = 0.2) := by
  refine ⟨by norm_num [appliedVolume], by norm_num [appliedVolume], ?_, ?_⟩
  · intro h
    unfold appliedVolume
    have h1 : (d - 40) / (1000 - 40) ≤ 0 :=
      div_nonpos_iff.mpr (Or.inr ⟨by linarith, by norm_num⟩)
    have h2 : min 1 ((d - 40) / (1000 - 40)) ≤ 0 :=
      le_trans (min_le_right _ _) h1
    rw [max_eq_left h2]
    norm_num
  · intro h
    unfold appliedVolume
    have h1 : (1 : ℚ) ≤ (d - 40) / (1000 - 40) := by
      rw [le_div_iff₀ (by norm_num : (0 : ℚ) < 1000 - 40)]; linarith
    rw [min_eq_left h1, max_eq_right (by norm_num : (0 : ℚ) ≤ 1)]
    norm_num

/-- Witness for claim10_endpoint_volumes at concrete distances 30 and
2000. -/
theorem claim10_endpoint_volumes_witness :
    appliedVolume 30 = 1 ∧ appliedVolume 2000 = 0.2 := by
  have h30 := claim10_endpoint_volumes 30
  have h2000 := claim10_endpoint_volumes 2000
  exact ⟨h30.2.2.1 (by norm_num), h2000.2.2.2 (by norm_num)⟩

/-- C2: during an active pointer-hold session with hold duration d at
least 0, while the spacebar is held the per-frame roundness equals
(currentSize / 2) * min(d, 3000) / 3000 and never exceeds
currentSize / 2, and maxRoundnessAchieved becomes the max of its previous
value and this roundness; while the spacebar is released the reported
preview roundness equals the frozen maxRoundnessAchieved and the stored
value does not change; at pointer-up the committed roundness is exactly
the maxRoundnessAchieved value at that instant. -/
theorem claim2_roundness_model (maxR d : ℚ) (h0 : 0 ≤ d) :
    (frameRoundness true maxR d).1
      = previewSize d / 2 * (min d 3000 / 3000) ∧
    (frameRoundness true maxR d).1 ≤ previewSize d / 2 ∧
    (frameRoundness true maxR d).2
      = max maxR (frameRoundness true maxR d).1 ∧
    (frameRoundness false maxR d).1 = maxR ∧
    (frameRoundness false maxR d).2 = maxR ∧
    (committedParams d maxR).2 = maxR := by
  have hm0 : (0 : ℚ) ≤ min d 3000 := le_min h0 (by norm_num)
  have hn1 : min d 3000 / 3000 ≤ 1 := by
    rw [div_le_one (by norm_num : (0 : ℚ) < 3000)]
    exact min_le_right _ _
  have hn0 : (0 : ℚ) ≤ min d 3000 / 3000 := div_nonneg hm0 (by norm_num)
  have hps : (0 : ℚ) ≤ previewSize d / 2 := by
    unfold previewSize; linarith
  refine ⟨by simp [frameRoundness], ?_, by simp [frameRoundness],
    by simp [frameRoundness], by simp [frameRoundness], rfl⟩
  have h1 : (frameRoundness true maxR d).1
      = previewSize d / 2 * (min d 3000 / 3000) := by simp [frameRoundness]
  rw [h1]
  exact mul_le_of_le_one_right hps hn1

/-- Witness for claim2_roundness_model at hold duration 3000 with stored
max roundness 0: the spacebar-held per-frame roundness is 25, exactly half
of the saturated size 50. -/
theorem claim2_roundness_model_witness :
    (frameRoundness true 0 3000).1 = previewSize 3000 / 2 * (min 3000 3000 / 3000) ∧
    (frameRoundness true 0 3000).1 ≤ previewSize 3000 / 2 ∧
    (frameRoundness true 0 3000).1 = 25 := by
  have h := claim2_roundness_model 0 3000 (by norm_num)
  refine ⟨h.1, h.2.1, ?_⟩
  rw [h.1]
  norm_num [previewSize]

/-- C3: committing a color channel with value v and hold-derived delta k
yields exactly (v + k) mod 256; two sequential commits whose deltas sum to
512 return the channel to its original value; and releasing key 1 after a
3000 ms hold starting from R = 255 commits R = (255 + 255) mod 256 =
254. -/
theorem claim3_color_commit_wrap (key : ChannelKey) (now d1 d2 : ℚ)
    (s : KeyHoldState) (c : RGBA)
    (hv0 : 0 ≤ getChannel key c) (hv1 : getChannel key c < 256)
    (hd1 : 0 ≤ d1) (hd2 : 0 ≤ d2)
    (hsum : colorChange d1 + colorChange d2 = 512) :
    getChannel key (handleKeyUpChannel key now s c).2
      = jsRem (getChannel key c
          + colorChange (now - (getHold key s).startTime)) 256 ∧
    getChannel key
        (handleKeyUpChannel key d2
          (handleKeyUpChannel key ((getHold key s).startTime + d1) s c).1
          (handleKeyUpChannel key ((getHold key s).startTime + d1) s c).2).2
      = getChannel key c ∧
    (handleKeyUpChannel ChannelKey.k1 3000
        { h1 := { isHolding := true, startTime := 0 },
          h2 := { isHolding := false, startTime := 0 },
          h3 := { isHolding := false, startTime := 0 },
          h4 := { isHolding := false, startTime := 0 } }
        { r := 255, g := 255, b := 255, a := 255 }).2.r = 254 := by
  have hk1 : 0 ≤ colorChange d1 := colorChange_nonneg d1 hd1
  have hk2 : 0 ≤ colorChange d2 := colorChange_nonneg d2 hd2
  refine ⟨getChannel_applyColorChange key _ c, ?_, ?_⟩
  · rw [show (handleKeyUpChannel key ((getHold key s).startTime + d1) s c).1
        = setHold key { isHolding := false, startTime := 0 } s from rfl]
    rw [show (handleKeyUpChannel key ((getHold key s).startTime + d1) s c).2
        = applyColorChange key
            (colorChange ((getHold key s).startTime + d1
              - (getHold key s).startTime)) c from rfl]
    rw [show (getHold key s).startTime + d1 - (getHold key s).startTime
        = d1 by ring]
    unfold handleKeyUpChannel
    rw [getHold_setHold]
    simp only []
    rw [getChannel_applyColorChange, getChannel_applyColorChange]
    rw [show d2 - (0 : ℚ) = d2 by ring]
    unfold jsRem
    set v := getChannel key c with hv
    set k1 := colorChange d1 with hk1d
    set k2 := colorChange d2 with hk2d
    have hin : Int.tmod (v + k1) 256 = (v + k1) % 256 :=
      Int.tmod_eq_emod (by linarith) (by norm_num)
    rw [hin]
    have hnn : 0 ≤ (v + k1) % 256 + k2 := by
      have hmod := Int.emod_nonneg (v + k1) (show (256 : ℤ) ≠ 0 by norm_num)
      linarith
    rw [Int.tmod_eq_emod hnn (by norm_num)]
    omega
  · show jsRem (255 + colorChange (3000 - 0)) 256 = 254
    rw [show (3000 : ℚ) - 0 = 3000 by norm_num,
      show colorChange 3000 = 255 by norm_num [colorChange]]
    decide

/-- Witness for claim3_color_commit_wrap: two commits each with delta 256
(hold duration 51200/17 ms) return channel R from 255 back to 255, and the
concrete 3000 ms scenario commits 254. -/
theorem claim3_color_commit_wrap_witness :
    getChannel ChannelKey.k1
        (handleKeyUpChannel ChannelKey.k1 (51200 / 17)
          (handleKeyUpChannel ChannelKey.k1 ((0 : ℚ) + 51200 / 17)
            { h1 := { isHolding := true, startTime := 0 },
              h2 := { isHolding := false, startTime := 0 },
              h3 := { isHolding := false, startTime := 0 },
              h4 := { isHolding := false, startTime := 0 } }
            { r := 255, g := 255, b := 255, a := 255 }).1
          (handleKeyUpChannel ChannelKey.k1 ((0 : ℚ) + 51200 / 17)
            { h1 := { isHolding := true, startTime := 0 },
              h2 := { isHolding := false, startTime := 0 },
              h3 := { isHolding := false, startTime := 0 },
              h4 := { isHolding := false, startTime := 0 } }
            { r := 255, g := 255, b := 255, a := 255 }).2).2
      = 255 := by
  have h := claim3_color_commit_wrap ChannelKey.k1 0 (51200 / 17)
    (51200 / 17)
    { h1 := { isHolding := true, startTime := 0 },
      h2 := { isHolding := false, startTime := 0 },
      h3 := { isHolding := false, startTime := 0 },
      h4 := { isHolding := false, startTime := 0 } }
    { r := 255, g := 255, b := 255, a := 255 }
    (by decide) (by decide) (by norm_num) (by norm_num)
    (by norm_num [colorChange])
  exact h.2.1

/-- C4 counterexample: with committed R = 0 and key 1 held since time 0,
at elapsed time 6000 ms the displayed preview is (0 + 510) mod 256 = 254,
while the claimed clamped formula gives (0 + 255) mod 256 = 255: the
displayed delta does exceed 255. -/
theorem claim4_counterexample :
    (previewValues { r := 0, g := 255, b := 255, a := 255 }
        { h1 := { isHolding := true, startTime := 0 },
          h2 := { isHolding := false, startTime := 0 },
          h3 := { isHolding := false, startTime := 0 },
          h4 := { isHolding := false, startTime := 0 } } 6000).r = 254 ∧
    (previewValuesSpec { r := 0, g := 255, b := 255, a := 255 }
        { h1 := { isHolding := true, startTime := 0 },
          h2 := { isHolding := false, startTime := 0 },
          h3 := { isHolding := false, startTime := 0 },
          h4 := { isHolding := false, startTime := 0 } } 6000).r = 255 ∧
    previewValues { r := 0, g := 255, b := 255, a := 255 }
        { h1 := { isHolding := true, startTime := 0 },
          h2 := { isHolding := false, startTime := 0 },
          h3 := { isHolding := false, startTime := 0 },
          h4 := { isHolding := false, startTime := 0 } } 6000
      ≠ previewValuesSpec { r := 0, g := 255, b := 255, a := 255 }
        { h1 := { isHolding := true, startTime := 0 },
          h2 := { isHolding := false, startTime := 0 },
          h3 := { isHolding := false, startTime := 0 },
          h4 := { isHolding := false, startTime := 0 } } 6000 := by
  have h1 : (previewValues { r := 0, g := 255, b := 255, a := 255 }
      { h1 := { isHolding := true, startTime := 0 },
        h2 := { isHolding := false, startTime := 0 },
        h3 := { isHolding := false, startTime := 0 },
        h4 := { isHolding := false, startTime := 0 } } 6000).r = 254 := by
    show jsRem (0 + colorChange (6000 - 0)) 256 = 254
    rw [show (6000 : ℚ) - 0 = 6000 by norm_num,
      show colorChange 6000 = 510 by norm_num [colorChange]]
    decide
  have h2 : (previewValuesSpec { r := 0, g := 255, b := 255, a := 255 }
      { h1 := { isHolding := true, startTime := 0 },
        h2 := { isHolding := false, startTime := 0 },
        h3 := { isHolding := false, startTime := 0 },
        h4 := { isHolding := false, startTime := 0 } } 6000).r = 255 := by
    show jsRem (0 + Int.floor (min ((6000 : ℚ) - 0) 3000 / 3000 * 255)) 256
        = 255
    rw [show Int.floor (min ((6000 : ℚ) - 0) 3000 / 3000 * 255) = 255 by
      norm_num]
    decide
  refine ⟨h1, h2, fun heq => ?_⟩
  rw [heq, h2] at h1
  exact absurd h1 (by decide)

/-- C4 amended: for a held channel the displayed preview value equals
(v + floor(e / 3000 * 255)) mod 256 with the raw elapsed time e, never
clamped by min with 3000; the code agrees with the claimed clamped formula
only for e up to 3000 ms, and for e at least 3000 ms the delta reaches 255
and keeps growing instead of saturating. -/
theorem claim4_preview_unclamped (key : ChannelKey) (c : RGBA)
    (s : KeyHoldState) (now : ℚ)
    (hhold : (getHold key s).isHolding = true) :
    getChannel key (previewValues c s now)
      = jsRem (getChannel key c
          + colorChange (now - (getHold key s).startTime)) 256 ∧
    (now - (getHold key s).startTime ≤ 3000 →
      getChannel key (previewValues c s now)
        = getChannel key (previewValuesSpec c s now)) ∧
    (∀ e : ℚ, 3000 ≤ e → 255 ≤ colorChange e) := by
  refine ⟨?_, ?_, ?_⟩
  · cases key <;> simp only [getHold] at hhold <;>
      simp [previewValues, getChannel, getHold, hhold, colorChange]
  · intro hle
    have hmin : min (now - (getHold key s).startTime) 3000
        = now - (getHold key s).startTime := min_eq_left hle
    cases key <;> simp only [getHold] at hhold hmin ⊢ <;>
      simp [previewValues, previewValuesSpec, getChannel, hhold,
        colorChange, hmin]
  · intro e he
    unfold colorChange
    have hcast : ((255 : ℤ) : ℚ) ≤ e / 3000 * 255 := by
      push_cast
      nlinarith
    exact Int.le_floor.mpr hcast

/-- Witness for claim4_preview_unclamped with key 1 held since time 0 at
elapsed time 1500 ms. -/
theorem claim4_preview_unclamped_witness :
    getChannel ChannelKey.k1
        (previewValues { r := 255, g := 255, b := 255, a := 255 }
          { h1 := { isHolding := true, startTime := 0 },
            h2 := { isHolding := false, startTime := 0 },
            h3 := { isHolding := false, startTime := 0 },
            h4 := { isHolding := false, startTime := 0 } } 1500)
      = getChannel ChannelKey.k1
        (previewValuesSpec { r := 255, g := 255, b := 255, a := 255 }
          { h1 := { isHolding := true, startTime := 0 },
            h2 := { isHolding := false, startTime := 0 },
            h3 := { isHolding := false, startTime := 0 },
            h4 := { isHolding := false, startTime := 0 } } 1500) ∧
    255 ≤ colorChange 3000 := by
  have h := claim4_preview_unclamped ChannelKey.k1
    { r := 255, g := 255, b := 255, a := 255 }
    { h1 := { isHolding := true, startTime := 0 },
      h2 := { isHolding := false, startTime := 0 },
      h3 := { isHolding := false, startTime := 0 },
      h4 := { isHolding := false, startTime := 0 } } 1500 rfl
  exact ⟨h.2.1 (by norm_num [getHold]), h.2.2 3000 le_rfl⟩

/-- C5 counterexample: a key-up for key 1 at time 3000 ms in the initial
state, where the channel is not holding and no press ever happened, still
commits R from 255 to (255 + 255) mod 256 = 254, so it is not a no-op on
the committed color. -/
theorem claim5_counterexample :
    (handleKeyUpChannel ChannelKey.k1 3000
        { h1 := { isHolding := false, startTime := 0 },
          h2 := { isHolding := false, startTime := 0 },
          h3 := { isHolding := false, startTime := 0 },
          h4 := { isHolding := false, startTime := 0 } }
        { r := 255, g := 255, b := 255, a := 255 }).2.r = 254 ∧
    (254 : ℤ) ≠ 255 := by
  constructor
  · show jsRem (255 + colorChange (3000 - 0)) 256 = 254
    rw [show (3000 : ℚ) - 0 = 3000 by norm_num,
      show colorChange 3000 = 255 by norm_num [colorChange]]
    decide
  · decide

/-- C5 amended: a key-up for a channel key whose hold state is already not
holding leaves the hold state not holding with startTime 0 and raises no
error, but it is not a no-op on the committed color: the handler has no
isHolding guard, so it still commits a delta of
floor((now - startTime) / 3000 * 255) mod 256 to that channel, computed
from the stale startTime of 0. -/
theorem claim5_keyup_without_press (key : ChannelKey) (now : ℚ)
    (s : KeyHoldState) (c : RGBA)
    (_hnot : (getHold key s).isHolding = false) :
    getHold key (handleKeyUpChannel key now s c).1
      = { isHolding := false, startTime := 0 } ∧
    getChannel key (handleKeyUpChannel key now s c).2
      = jsRem (getChannel key c
          + colorChange (now - (getHold key s).startTime)) 256 :=
  ⟨getHold_setHold key _ s, getChannel_applyColorChange key _ c⟩

/-- Witness for claim5_keyup_without_press at the initial state and time
3000 ms. -/
theorem claim5_keyup_without_press_witness :
    getHold ChannelKey.k1
        (handleKeyUpChannel ChannelKey.k1 3000
          { h1 := { isHolding := false, startTime := 0 },
            h2 := { isHolding := false, startTime := 0 },
            h3 := { isHolding := false, startTime := 0 },
            h4 := { isHolding := false, startTime := 0 } }
          { r := 255, g := 255, b := 255, a := 255 }).1
      = { isHolding := false, startTime := 0 } :=
  (claim5_keyup_without_press ChannelKey.k1 3000
    { h1 := { isHolding := false, startTime := 0 },
      h2 := { isHolding := false, startTime := 0 },
      h3 := { isHolding := false, startTime := 0 },
      h4 := { isHolding := false, startTime := 0 } }
    { r := 255, g := 255, b := 255, a := 255 } rfl).1

/-- C6: a key-down for a channel key already holding leaves the hold state
completely unchanged, so a press at t0 followed by any sequence of repeat
key-down events and a release at T commits exactly the value of one
continuous hold of duration T - t0 measured from the first press. -/
theorem claim6_keydown_repeat (key : ChannelKey) (t0 T : ℚ)
    (ts : List ℚ) (s₀ : KeyHoldState) (c : RGBA)
    (hstart : (getHold key s₀).isHolding = false) :
    (∀ (t : ℚ) (s : KeyHoldState), (getHold key s).isHolding = true →
      handleKeyDownChannel key t s = s) ∧
    ts.foldl (fun st t => handleKeyDownChannel key t st)
        (handleKeyDownChannel key t0 s₀)
      = handleKeyDownChannel key t0 s₀ ∧
    getChannel key
        (handleKeyUpChannel key T
          (ts.foldl (fun st t => handleKeyDownChannel key t st)
            (handleKeyDownChannel key t0 s₀)) c).2
      = jsRem (getChannel key c + colorChange (T - t0)) 256 := by
  have hrep : ∀ (t : ℚ) (s : KeyHoldState),
      (getHold key s).isHolding = true →
      handleKeyDownChannel key t s = s := by
    intro t s hs
    unfold handleKeyDownChannel
    rw [hs]
    simp
  have hdown : handleKeyDownChannel key t0 s₀
      = setHold key { isHolding := true, startTime := t0 } s₀ := by
    unfold handleKeyDownChannel
    rw [hstart]
    simp
  have hholding : (getHold key (handleKeyDownChannel key t0 s₀)).isHolding
      = true := by
    rw [hdown, getHold_setHold]
  have hfold : ∀ (l : List ℚ) (s : KeyHoldState),
      (getHold key s).isHolding = true →
      l.foldl (fun st t => handleKeyDownChannel key t st) s = s := by
    intro l
    induction l with
    | nil => intro s _; rfl
    | cons t l ih =>
      intro s hs
      rw [List.foldl_cons, hrep t s hs]
      exact ih s hs
  have hfix := hfold ts _ hholding
  refine ⟨hrep, hfix, ?_⟩
  rw [hfix, hdown]
  rw [show (handleKeyUpChannel key T
      (setHold key { isHolding := true, startTime := t0 } s₀) c).2
    = applyColorChange key
        (colorChange (T - (getHold key
          (setHold key { isHolding := true, startTime := t0 } s₀)).startTime))
        c from rfl]
  rw [getHold_setHold]
  exact getChannel_applyColorChange key _ c

/-- Witness for claim6_keydown_repeat: press key 1 at 0, repeats at 100
and 200, release at 3000, from the initial color: the commit is
(255 + 255) mod 256 = 254, as for one continuous 3000 ms hold. -/
theorem claim6_keydown_repeat_witness :
    getChannel ChannelKey.k1
        (handleKeyUpChannel ChannelKey.k1 3000
          ([100, 200].foldl
            (fun st t => handleKeyDownChannel ChannelKey.k1 t st)
            (handleKeyDownChannel ChannelKey.k1 0
              { h1 := { isHolding := false, startTime := 0 },
                h2 := { isHolding := false, startTime := 0 },
                h3 := { isHolding := false, startTime := 0 },
                h4 := { isHolding := false, startTime := 0 } }))
          { r := 255, g := 255, b := 255, a := 255 }).2
      = 254 := by
  have h := claim6_keydown_repeat ChannelKey.k1 0 3000 [100, 200]
    { h1 := { isHolding := false, startTime := 0 },
      h2 := { isHolding := false, startTime := 0 },
      h3 := { isHolding := false, startTime := 0 },
      h4 := { isHolding := false, startTime := 0 } }
    { r := 255, g := 255, b := 255, a := 255 } rfl
  rw [h.2.2]
  rw [show (3000 : ℚ) - 0 = 3000 by norm_num,
    show colorChange 3000 = 255 by norm_num [colorChange],
    show getChannel ChannelKey.k1
      { r := 255, g := 255, b := 255, a := 255 } = 255 from rfl]
  decide

/-- C7 counterexample: with no water hit, for the ray from (0, 20, 0)
along (1, -1, 0) the source resolves the anchor on the plane at height 0,
giving (20, 0, 0), while the claimed plane at the height of the look-at
target (0, 10, 0) would give (10, 10, 0). -/
theorem claim7_counterexample :
    resolveAnchor none
        { origin := { x := 0, y := 20, z := 0 },
          dir := { x := 1, y := -1, z := 0 } }
      = { x := 20, y := 0, z := 0 } ∧
    resolveAnchorSpec none
        { origin := { x := 0, y := 20, z := 0 },
          dir := { x := 1, y := -1, z := 0 } }
      = { x := 10, y := 10, z := 0 } ∧
    resolveAnchor none
        { origin := { x := 0, y := 20, z := 0 },
          dir := { x := 1, y := -1, z := 0 } }
      ≠ resolveAnchorSpec none
        { origin := { x := 0, y := 20, z := 0 },
          dir := { x := 1, y := -1, z := 0 } } := by
  have hc : resolveAnchor none
      { origin := { x := 0, y := 20, z := 0 },
        dir := { x := 1, y := -1, z := 0 } }
      = { x := 20, y := 0, z := 0 } := by
    norm_num [resolveAnchor, intersectPlane, distanceToPlane,
      fallbackPlane, Vec3.dot, Ray3.at]
  have hs : resolveAnchorSpec none
      { origin := { x := 0, y := 20, z := 0 },
        dir := { x := 1, y := -1, z := 0 } }
      = { x := 10, y := 10, z := 0 } := by
    norm_num [resolveAnchorSpec, intersectPlane, distanceToPlane,
      Vec3.dot, Ray3.at]
  refine ⟨hc, hs, fun heq => ?_⟩
  rw [hc, hs] at heq
  have hx : (20 : ℚ) = 10 := congrArg Vec3.x heq
  norm_num at hx

/-- C7 amended: on a primary-button pointer-down the anchor is the water
raycast hit if one exists, else the ray intersection with the horizontal
plane at height 0 (the height of the water plane, not of the look-at
target), else the origin; a non-primary button creates no session. -/
theorem claim7_anchor_resolution (button : ℤ) (w : Option Vec3)
    (r : Ray3) (p q : Vec3) :
    (button ≠ 0 → handleMouseDownSession button w r = none) ∧
    handleMouseDownSession 0 (some p) r = some p ∧
    (intersectPlane fallbackPlane r = some q →
      handleMouseDownSession 0 none r = some q) ∧
    (intersectPlane fallbackPlane r = none →
      handleMouseDownSession 0 none r = some { x := 0, y := 0, z := 0 }) := by
  refine ⟨fun h => by simp [handleMouseDownSession, h],
    by simp [handleMouseDownSession, resolveAnchor],
    fun h => by simp [handleMouseDownSession, resolveAnchor, h],
    fun h => by simp [handleMouseDownSession, resolveAnchor, h]⟩

/-- Witness for claim7_anchor_resolution: button 2 creates no session; a
water hit at (1, 2, 3) is used directly; without a water hit the downward
ray from (0, 20, 0) anchors at (20, 0, 0) on the plane at height 0; a
horizontal ray above the plane anchors at the origin. -/
theorem claim7_anchor_resolution_witness :
    handleMouseDownSession 2 none
        { origin := { x := 0, y := 20, z := 0 },
          dir := { x := 1, y := -1, z := 0 } } = none ∧
    handleMouseDownSession 0 (some { x := 1, y := 2, z := 3 })
        { origin := { x := 0, y := 20, z := 0 },
          dir := { x := 1, y := -1, z := 0 } }
      = some { x := 1, y := 2, z := 3 } ∧
    handleMouseDownSession 0 none
        { origin := { x := 0, y := 20, z := 0 },
          dir := { x := 1, y := -1, z := 0 } }
      = some { x := 20, y := 0, z := 0 } ∧
    handleMouseDownSession 0 none
        { origin := { x := 0, y := 20, z := 0 },
          dir := { x := 1, y := 0, z := 0 } }
      = some { x := 0, y := 0, z := 0 } := by
  have h1 := claim7_anchor_resolution 2 none
    { origin := { x := 0, y := 20, z := 0 },
      dir := { x := 1, y := -1, z := 0 } }
    { x := 1, y := 2, z := 3 } { x := 20, y := 0, z := 0 }
  have h2 := claim7_anchor_resolution 0 (some { x := 1, y := 2, z := 3 })
    { origin := { x := 0, y := 20, z := 0 },
      dir := { x := 1, y := -1, z := 0 } }
    { x := 1, y := 2, z := 3 } { x := 20, y := 0, z := 0 }
  have h3 := claim7_anchor_resolution 0 none
    { origin := { x := 0, y := 20, z := 0 },
      dir := { x := 1, y := 0, z := 0 } }
    { x := 1, y := 2, z := 3 } { x := 20, y := 0, z := 0 }
  refine ⟨h1.1 (by norm_num), h2.2.1, h2.2.2.1 ?_, h3.2.2.2 ?_⟩
  · norm_num [intersectPlane, distanceToPlane, fallbackPlane, Vec3.dot,
      Ray3.at]
  · norm_num [intersectPlane, distanceToPlane, fallbackPlane, Vec3.dot]

/-- The stepwise shape of the polar angle after updateSpherical: the up
clamp is applied first when up is active, then the down clamp when down is
active; the azimuth moves never touch phi. -/
theorem updateSpherical_phi_eq (keys : ArrowKeys) (delta : ℚ)
    (s : SphericalCoords) :
    (updateSpherical keys delta s).phi
      = if keys.down then
          clampPolar ((if keys.up then
              clampPolar (s.phi - rotationSpeed * delta) else s.phi)
            + rotationSpeed * delta)
        else if keys.up then
          clampPolar (s.phi - rotationSpeed * delta) else s.phi := by
  rcases keys with ⟨u, kd, kl, kr⟩
  cases u <;> cases kd <;> cases kl <;> cases kr <;>
    simp [updateSpherical]

/-- updateSpherical never assigns the radius field. -/
theorem updateSpherical_radius_eq (keys : ArrowKeys) (delta : ℚ)
    (s : SphericalCoords) :
    (updateSpherical keys delta s).radius = s.radius := by
  rcases keys with ⟨u, kd, kl, kr⟩
  cases u <;> cases kd <;> cases kl <;> cases kr <;>
    simp [updateSpherical]

/-- C8: after an arrow-key-driven camera update with up or down active the
polar angle lies in [0.1, Math.PI * 0.495] whatever the prior state; an
arrow-driven update with neither up nor down active leaves the polar angle
unchanged (so the interval is preserved across every arrow-driven update);
the spherical radius is never modified; and on a frame with no arrow key
active the camera state is left completely untouched. -/
theorem claim8_camera_polar_clamp (keys : ArrowKeys) (delta : ℚ)
    (s : SphericalCoords) :
    ((keys.up = true ∨ keys.down = true) →
      0.1 ≤ (cameraFrame keys delta s).phi ∧
        (cameraFrame keys delta s).phi ≤ mathPI * 0.495) ∧
    (keys.up = false → keys.down = false →
      (cameraFrame keys delta s).phi = s.phi) ∧
    (cameraFrame keys delta s).radius = s.radius ∧
    (anyArrow keys = false → cameraFrame keys delta s = s) := by
  refine ⟨?_, ?_, ?_, fun h => by simp [cameraFrame, h]⟩
  · intro hud
    have hany : anyArrow keys = true := by
      rcases hud with h | h <;> simp [anyArrow, h]
    rw [show cameraFrame keys delta s = updateSpherical keys delta s by
      simp [cameraFrame, hany]]
    rw [updateSpherical_phi_eq]
    rcases hdown : keys.down with _ | _
    · rcases hud with h | h
      · rw [h]
        simp only [if_false, if_true, Bool.false_eq_true]
        exact clampPolar_mem _
      · rw [h] at hdown
        exact absurd hdown (by simp)
    · simp only [if_true]
      exact clampPolar_mem _
  · intro hu hd
    rcases hany : anyArrow keys with _ | _
    · simp [cameraFrame, hany]
    · rw [show cameraFrame keys delta s = updateSpherical keys delta s by
        simp [cameraFrame, hany]]
      rw [updateSpherical_phi_eq, hu, hd]
      simp
  · rcases hany : anyArrow keys with _ | _
    · simp [cameraFrame, hany]
    · rw [show cameraFrame keys delta s = updateSpherical keys delta s by
        simp [cameraFrame, hany]]
      exact updateSpherical_radius_eq keys delta s

/-- Witness for claim8_camera_polar_clamp at concrete states: an up-arrow
frame from polar angle 1 stays in the clamp interval, a left-only frame
keeps the polar angle, and a frame with no arrow active keeps the whole
state. -/
theorem claim8_camera_polar_clamp_witness :
    (0.1 ≤ (cameraFrame
        { up := true, down := false, left := false, right := false } 0
        { radius := 200, phi := 1, theta := 0 }).phi ∧
      (cameraFrame
        { up := true, down := false, left := false, right := false } 0
        { radius := 200, phi := 1, theta := 0 }).phi ≤ mathPI * 0.495) ∧
    (cameraFrame
        { up := false, down := false, left := true, right := false } 0
        { radius := 200, phi := 1, theta := 0 }).phi = 1 ∧
    (cameraFrame
        { up := false, down := false, left := false, right := false } 0
        { radius := 200, phi := 1, theta := 0 }).radius = 200 ∧
    cameraFrame
        { up := false, down := false, left := false, right := false } 0
        { radius := 200, phi := 1, theta := 0 }
      = { radius := 200, phi := 1, theta := 0 } := by
  have h1 := claim8_camera_polar_clamp
    { up := true, down := false, left := false, right := false } 0
    { radius := 200, phi := 1, theta := 0 }
  have h2 := claim8_camera_polar_clamp
    { up := false, down := false, left := true, right := false } 0
    { radius := 200, phi := 1, theta := 0 }
  have h3 := claim8_camera_polar_clamp
    { up := false, down := false, left := false, right := false } 0
    { radius := 200, phi := 1, theta := 0 }
  exact ⟨h1.1 (Or.inl rfl), h2.2.1 rfl rfl, h3.2.2.1, h3.2.2.2 rfl⟩

